import Mathlib

/-!
Verification of the docbot-enterprise frontend service layer.

This file shallowly embeds the frontend code of the repository:
the service wrapper classes (`AuthService` in
frontend/src/services/authService.ts, `InvoiceService` in the same
bundle, `DashboardService` in frontend/src/services/dashboardService.ts),
the `AuthProvider` context (login/logout/initAuth), the
`InvoiceUpload.handleUpload` handler, and the mock `Dashboard` of App.js.

JavaScript conventions are made explicit:
  - `localStorage` is an association list of string keys to string values;
    `getItem` of an absent key yields `none` (JS `null`), and a template
    literal `Bearer ${token}` with a `null` token produces "Bearer null".
  - An axios error carries an optional `response` with a numeric `status`
    and an optional string `detail` in its body; `e.response?.data?.detail
    || fb` falls back to `fb` when `response` is absent, `detail` is
    absent, or `detail` is the empty string (JS falsiness).
  - Each service method issues one axios call inside try/catch and maps
    the caught error to a thrown `Error` message.
-/

namespace Docbot

/-- The piece of an axios error response the services inspect:
`error.response.status` and `error.response.data.detail`. -/
structure AxiosResponseInfo where
  status : Nat
  detail : Option String
deriving Repr, DecidableEq

/-- An axios error: the `response` field is absent on network errors. -/
structure AxiosError where
  response : Option AxiosResponseInfo
deriving Repr, DecidableEq

/-- JS `error.response?.status === n`. -/
def AxiosError.hasStatus (e : AxiosError) (n : Nat) : Bool :=
  match e.response with
  | some r => r.status == n
  | none => false

/-- JS `error.response?.data?.detail || fb`: the server detail when it is
present and non-empty (JS truthiness), otherwise the fallback `fb`. -/
def detailOr (fb : String) (e : AxiosError) : String :=
  match e.response with
  | some r =>
    match r.detail with
    | some d => if d = "" then fb else d
    | none => fb
  | none => fb

/-- The methods of the three service classes. -/
inductive SMethod where
  | login
  | getCurrentUser
  | refreshToken
  | register
  | forgotPassword
  | resetPassword
  | updateProfile
  | changePassword
  | uploadInvoice
  | getInvoices
  | getInvoice
  | approveInvoice
  | getStats
  | getRecentInvoices
deriving Repr, DecidableEq

/-- The error message each service method throws for a failed HTTP call,
transcribed from the catch blocks of authService.ts (AuthService and
InvoiceService) and dashboardService.ts. -/
def errMap : SMethod → AxiosError → String
  | .login, e =>
    if e.hasStatus 401 then "Invalid email or password"
    else detailOr "Login failed" e
  | .getCurrentUser, e =>
    if e.hasStatus 401 then "Invalid or expired token"
    else detailOr "Failed to get user data" e
  | .refreshToken, e => detailOr "Token refresh failed" e
  | .register, e =>
    if e.hasStatus 400 then detailOr "Registration failed" e
    else "Registration failed"
  | .forgotPassword, e => detailOr "Failed to send reset email" e
  | .resetPassword, e => detailOr "Failed to reset password" e
  | .updateProfile, e => detailOr "Failed to update profile" e
  | .changePassword, e =>
    if e.hasStatus 400 then "Current password is incorrect"
    else detailOr "Failed to change password" e
  | .uploadInvoice, e =>
    if e.hasStatus 401 then "Authentication required"
    else detailOr "Failed to upload invoice" e
  | .getInvoices, e => detailOr "Failed to get invoices" e
  | .getInvoice, e => detailOr "Failed to get invoice" e
  | .approveInvoice, e => detailOr "Failed to approve invoice" e
  | .getStats, e =>
    if e.hasStatus 401 then "Authentication required"
    else detailOr "Failed to get dashboard stats" e
  | .getRecentInvoices, e =>
    if e.hasStatus 401 then "Authentication required"
    else detailOr "Failed to get recent invoices" e

/-- Browser `localStorage`, an association list of string keys/values. -/
structure Store where
  entries : List (String × String)
deriving Repr, DecidableEq

/-- `localStorage.getItem k`: `none` models JS `null`. -/
def getItem (k : String) (s : Store) : Option String :=
  (s.entries.find? (fun p => p.1 == k)).map (·.2)

/-- `localStorage.setItem k v` (last write wins on lookup). -/
def setItem (k v : String) (s : Store) : Store :=
  ⟨(k, v) :: s.entries.filter (fun p => p.1 != k)⟩

/-- `localStorage.removeItem k`. -/
def removeItem (k : String) (s : Store) : Store :=
  ⟨s.entries.filter (fun p => p.1 != k)⟩

/-- JS template literal `Bearer ${localStorage.getItem('docbot_token')}`:
an absent token interpolates as the string "null". -/
def bearerOf (s : Store) : String :=
  "Bearer " ++ (match getItem "docbot_token" s with
    | some t => t
    | none => "null")

/-- `AuthService.getAuthHeaders(token)` in authService.ts. -/
def authHeadersAuth (token : String) : List (String × String) :=
  [("Authorization", "Bearer " ++ token), ("Content-Type", "application/json")]

/-- `InvoiceService.getAuthHeaders()`: reads the token from localStorage. -/
def authHeadersInvoice (s : Store) : List (String × String) :=
  [("Authorization", bearerOf s)]

/-- `DashboardService.getAuthHeaders()`: reads the token from localStorage. -/
def authHeadersDashboard (s : Store) : List (String × String) :=
  [("Authorization", bearerOf s), ("Content-Type", "application/json")]

/-- Fallback API base URL in authService.ts (used when REACT_APP_API_URL
is unset). -/
def AUTH_API_BASE_URL : String := "https://docbot-enterprise-backend.onrender.com"

/-- Fallback API base URL in the InvoiceService part of the bundle. -/
def INVOICE_API_BASE_URL : String := "http://localhost:8000"

/-- Fallback API base URL in dashboardService.ts. -/
def DASHBOARD_API_BASE_URL : String := "https://docbot-enterprise-backend.onrender.com"

/-- An HTTP request as the services build it: verb, full URL and the
explicitly supplied headers. -/
structure HttpRequest where
  verb : String
  url : String
  headers : List (String × String)
deriving Repr, DecidableEq

/-- The argument record of `InvoiceService.getInvoices`. Numeric fields are
JS numbers restricted to integers (the values the claims concern). -/
structure GetInvoicesParams where
  skip : Option Int
  limit : Option Int
  status_filter : Option String
deriving Repr, DecidableEq

/-- One `if (params?.x) queryParams.append('x', ...)` line for a numeric
parameter: JS truthiness skips the append for `0` (and for an absent
params object or field). -/
def numParamSeg (name : String) (o : Option Int) : List (String × String) :=
  match o with
  | some n => if n ≠ 0 then [(name, toString n)] else []
  | none => []

/-- The same for a string parameter: the empty string is falsy. -/
def strParamSeg (name : String) (o : Option String) : List (String × String) :=
  match o with
  | some f => if f ≠ "" then [(name, f)] else []
  | none => []

/-- The query pairs `getInvoices` appends, in append order. -/
def invoiceQueryParams : Option GetInvoicesParams → List (String × String)
  | none => []
  | some p =>
    numParamSeg "skip" p.skip ++ numParamSeg "limit" p.limit ++
      strParamSeg "status_filter" p.status_filter

/-- `URLSearchParams.toString()` over the appended pairs. -/
def queryToString (ps : List (String × String)) : String :=
  String.intercalate "&" (ps.map (fun p => p.1 ++ "=" ++ p.2))

/-- A concrete invocation of a service method with its arguments. -/
inductive MethodCall where
  | login (email password : String)
  | getCurrentUser (token : String)
  | refreshToken (token : String)
  | register (email password first_name last_name : String)
  | forgotPassword (email : String)
  | resetPassword (token password : String)
  | updateProfile (token : String)
  | changePassword (token currentPassword newPassword : String)
  | uploadInvoice (s : Store) (file : String)
  | getInvoices (s : Store) (params : Option GetInvoicesParams)
  | getInvoice (s : Store) (invoiceId : Int)
  | approveInvoice (s : Store) (invoiceId : Int)
  | getStats (s : Store)
  | getRecentInvoices (s : Store) (limit : Int)

/-- The method a call invokes. -/
def methodTag : MethodCall → SMethod
  | .login .. => .login
  | .getCurrentUser .. => .getCurrentUser
  | .refreshToken .. => .refreshToken
  | .register .. => .register
  | .forgotPassword .. => .forgotPassword
  | .resetPassword .. => .resetPassword
  | .updateProfile .. => .updateProfile
  | .changePassword .. => .changePassword
  | .uploadInvoice .. => .uploadInvoice
  | .getInvoices .. => .getInvoices
  | .getInvoice .. => .getInvoice
  | .approveInvoice .. => .approveInvoice
  | .getStats .. => .getStats
  | .getRecentInvoices .. => .getRecentInvoices

/-- The single axios request each method issues, transcribed from the
method bodies (endpoint paths and header construction). -/
def requestOf : MethodCall → HttpRequest
  | .login _ _ =>
    ⟨"POST", AUTH_API_BASE_URL ++ "/api/v1/auth/login", []⟩
  | .getCurrentUser t =>
    ⟨"GET", AUTH_API_BASE_URL ++ "/api/v1/users/me", authHeadersAuth t⟩
  | .refreshToken t =>
    ⟨"POST", AUTH_API_BASE_URL ++ "/api/v1/auth/refresh", authHeadersAuth t⟩
  | .register _ _ _ _ =>
    ⟨"POST", AUTH_API_BASE_URL ++ "/api/v1/auth/register", []⟩
  | .forgotPassword _ =>
    ⟨"POST", AUTH_API_BASE_URL ++ "/api/v1/auth/forgot-password", []⟩
  | .resetPassword _ _ =>
    ⟨"POST", AUTH_API_BASE_URL ++ "/api/v1/auth/reset-password", []⟩
  | .updateProfile t =>
    ⟨"PUT", AUTH_API_BASE_URL ++ "/api/v1/users/me", authHeadersAuth t⟩
  | .changePassword t _ _ =>
    ⟨"POST", AUTH_API_BASE_URL ++ "/api/v1/auth/change-password", authHeadersAuth t⟩
  | .uploadInvoice s _ =>
    ⟨"POST", INVOICE_API_BASE_URL ++ "/api/v1/invoices/upload",
      authHeadersInvoice s ++ [("Content-Type", "multipart/form-data")]⟩
  | .getInvoices s p =>
    ⟨"GET", INVOICE_API_BASE_URL ++ "/api/v1/invoices?" ++
      queryToString (invoiceQueryParams p), authHeadersInvoice s⟩
  | .getInvoice s i =>
    ⟨"GET", INVOICE_API_BASE_URL ++ "/api/v1/invoices/" ++ toString i,
      authHeadersInvoice s⟩
  | .approveInvoice s i =>
    ⟨"PUT", INVOICE_API_BASE_URL ++ "/api/v1/invoices/" ++ toString i ++ "/approve",
      authHeadersInvoice s⟩
  | .getStats s =>
    ⟨"GET", DASHBOARD_API_BASE_URL ++ "/api/v1/stats/dashboard",
      authHeadersDashboard s⟩
  | .getRecentInvoices s l =>
    ⟨"GET", DASHBOARD_API_BASE_URL ++ "/api/v1/invoices?limit=" ++ toString l,
      authHeadersDashboard s⟩

/-- `getRecentInvoices(limit = 10)`: the TS default argument. -/
def getRecentInvoicesCall (s : Store) (limit : Int := 10) : MethodCall :=
  .getRecentInvoices s limit

/-- A recent-invoice row as typed in dashboardService.ts. The JS number
`total_amount` is modelled as an exact rational. -/
structure RecentInvoice where
  id : Nat
  invoice_number : String
  vendor_name : String
  total_amount : Rat
  status : String
  created_at : String
deriving Repr, DecidableEq

/-- A successful response body, as far as the claims inspect it: the
optional `invoices` array returned by the invoices listing endpoint
(absent or JS `null` both map to `none`). -/
structure RespBody where
  invoices : Option (List RecentInvoice)
deriving Repr, DecidableEq

/-- `response.data.invoices || []` in `getRecentInvoices`: an absent or
null field yields the empty array, an array yields itself. -/
def extractRecentInvoices (b : RespBody) : List RecentInvoice :=
  b.invoices.getD []

/-- Run one service method against an HTTP oracle. Each method body is a
single awaited axios call inside try/catch: the trace records the
requests issued, and a failure surfaces solely as the mapped thrown
error message. -/
def runMethod (c : MethodCall) (oracle : HttpRequest → Except AxiosError RespBody) :
    List HttpRequest × Except String RespBody :=
  match oracle (requestOf c) with
  | .ok b => ([requestOf c], .ok b)
  | .error e => ([requestOf c], .error (errMap (methodTag c) e))

/-- The user record held by AuthContext (contexts/AuthContext.tsx). -/
structure User where
  id : Nat
  email : String
  first_name : String
  last_name : String
  full_name : String
  is_admin : Bool
deriving Repr, DecidableEq

/-- The AuthProvider state: `user`, `token` and `loading`. -/
structure AuthState where
  user : Option User
  token : Option String
  loading : Bool
deriving Repr, DecidableEq

/-- `logout()` in AuthContext: null the user and token, remove the stored
token. -/
def logout (st : AuthState) (s : Store) : AuthState × Store :=
  ({ st with user := none, token := none }, removeItem "docbot_token" s)

/-- `initAuth` in AuthContext: validate a stored token via
`authService.getCurrentUser`; on failure remove it and null the token
state. The oracle returns the parsed user of the `/api/v1/users/me`
response. -/
def initAuth (s : Store) (oracle : HttpRequest → Except AxiosError User) :
    AuthState × Store :=
  match getItem "docbot_token" s with
  | none => (⟨none, none, false⟩, s)
  | some tok =>
    match oracle (requestOf (.getCurrentUser tok)) with
    | .ok u => (⟨some u, some tok, false⟩, s)
    | .error _ => (⟨none, none, false⟩, removeItem "docbot_token" s)

/-- The response of `uploadInvoice`, as typed in the InvoiceService
bundle (`extracted_data: any` is kept opaque as a string). -/
structure UploadResponse where
  status : String
  invoice_id : Nat
  extracted_data : String
  confidence_score : Rat
deriving Repr, DecidableEq

/-- `invoiceService.uploadInvoice(file)`: one request; a 401 maps to
"Authentication required", any other failure to the detail-or-fallback
message. The thrown `Error` carries no `response` field. -/
def uploadInvoiceResult (outcome : Except AxiosError UploadResponse) :
    Except String UploadResponse :=
  match outcome with
  | .ok r => .ok r
  | .error e => .error (errMap .uploadInvoice e)

/-- The observable outcome of one `handleUpload` run on the InvoiceUpload
page: notifications shown (message, kind), upload requests issued (one
file each), the route navigated to, and the final component state. -/
structure UploadRun where
  notifications : List (String × String)
  requests : List String
  navigatedTo : Option String
  finalFiles : List String
  finalUploading : Bool
  finalProgress : Nat
deriving Repr, DecidableEq

/-- `InvoiceUpload.handleUpload`, transcribed from the page source. Files
are identified by name. With no file selected it shows an error toast and
returns before touching any other state. Otherwise it calls
`invoiceService.uploadInvoice` once per file via `Promise.all`; on full
success it shows a success toast, clears the list and navigates to
/invoices; on any failure the catch shows
`error.response?.data?.detail || 'Failed to upload invoices'`, which is
always the fallback because the mapped `Error` has no `response`. The
`finally` block resets `uploading` and the progress. -/
def handleUpload (files : List String) (uploading : Bool) (progress : Nat)
    (oracle : String → Except AxiosError UploadResponse) : UploadRun :=
  if files.isEmpty then
    { notifications := [("Please select at least one file to upload", "error")]
      requests := []
      navigatedTo := none
      finalFiles := files
      finalUploading := uploading
      finalProgress := progress }
  else if files.all (fun f => (uploadInvoiceResult (oracle f)).isOk) then
    { notifications := [("Successfully uploaded " ++ toString files.length ++
        " invoice" ++ (if files.length > 1 then "s" else ""), "success")]
      requests := files
      navigatedTo := some "/invoices"
      finalFiles := []
      finalUploading := false
      finalProgress := 0 }
  else
    { notifications := [("Failed to upload invoices", "error")]
      requests := files
      navigatedTo := none
      finalFiles := files
      finalUploading := false
      finalProgress := 0 }

/-- The stats object of the demo Dashboard in App.js. -/
structure DemoStats where
  total_invoices : Nat
  pending_review : Nat
  approved_invoices : Nat
  total_amount : String
deriving Repr, DecidableEq

/-- The constant the demo Dashboard `useEffect` stores ("Mock stats for
demo without authentication"). -/
def demoMockStats : DemoStats :=
  { total_invoices := 47
    pending_review := 8
    approved_invoices := 39
    total_amount := "23456.78" }

/-- The `stats` state of the demo Dashboard after its mount effect: the
effect performs no fetch, so the result ignores whatever the backend
would answer. -/
def demoDashboardStatsAfterMount (_backendResponse : Option RespBody) :
    Option DemoStats :=
  some demoMockStats

/-! Helper lemmas about the localStorage association list. -/

theorem find?_filter_self (l : List (String × String)) (key : String) :
    (l.filter (fun p => p.1 != key)).find? (fun p => p.1 == key) = none := by
  rw [List.find?_eq_none]
  intro x hx
  have h := List.of_mem_filter hx
  simp only [bne_iff_ne, ne_eq] at h
  simp [h]

theorem getItem_removeItem_self (key : String) (s : Store) :
    getItem key (removeItem key s) = none := by
  unfold getItem removeItem
  rw [find?_filter_self]
  rfl

theorem getItem_removeItem_ne (k key : String) (hk : k ≠ key) (s : Store) :
    getItem k (removeItem key s) = getItem k s := by
  unfold getItem removeItem
  congr 1
  obtain ⟨l⟩ := s
  induction l with
  | nil => rfl
  | cons hd tl ih =>
    have hkk : (key == k) = false := by
      simp only [beq_eq_false_iff_ne, ne_eq]
      exact fun hcon => hk hcon.symm
    by_cases h1 : hd.1 = key
    · have hne : (hd.1 == k) = false := by
        simp only [beq_eq_false_iff_ne, ne_eq]
        intro hcon
        exact hk (hcon ▸ h1)
      simp [List.filter_cons, List.find?_cons, h1, hne, hkk, ih]
    · by_cases h2 : hd.1 = k
      · simp [List.filter_cons, List.find?_cons, h1, h2, hk, hkk]
      · simp [List.filter_cons, List.find?_cons, h1, h2, ih]

/-! Claim theorems. -/

/-- Claim C1, counterexample. The claim says every service method maps a
401 failure to the authentication-required message. In the code,
`getInvoices` has no 401 branch: a 401 response with detail "boom"
surfaces "boom", and `uploadInvoice` can produce "Authentication
required" on a non-401 status when the server detail happens to be that
string, so the mapping is not "exactly when" either. -/
theorem getInvoices_401_not_auth_required :
    errMap .getInvoices ⟨some ⟨401, some "boom"⟩⟩ = "boom" ∧
    "boom" ≠ "Authentication required" ∧
    errMap .uploadInvoice ⟨some ⟨400, some "Authentication required"⟩⟩ =
      "Authentication required" := by
  refine ⟨by decide, by decide, by decide⟩

/-- Claim C1, amended. `uploadInvoice`, `getStats` and `getRecentInvoices`
throw Error("Authentication required") whenever the response status is
401 and the detail-or-fallback message otherwise; `login` and
`getCurrentUser` map 401 to their own fixed messages; on a 401,
`register` throws its fixed fallback "Registration failed" (its only
branch is for 400) and `changePassword` throws detail-or-fallback (its
only branch is for 400); the seven remaining methods have no
status-specific branch at all and throw detail-or-fallback for every
failure, 401 included; and every failure of every method is surfaced
solely as the mapped thrown error. -/
theorem service_401_mapping (e : AxiosError) (r : AxiosResponseInfo)
    (h : e.response = some r) :
    (r.status = 401 →
      errMap .uploadInvoice e = "Authentication required" ∧
      errMap .getStats e = "Authentication required" ∧
      errMap .getRecentInvoices e = "Authentication required" ∧
      errMap .login e = "Invalid email or password" ∧
      errMap .getCurrentUser e = "Invalid or expired token" ∧
      errMap .register e = "Registration failed" ∧
      errMap .changePassword e = detailOr "Failed to change password" e) ∧
    (r.status ≠ 401 →
      errMap .uploadInvoice e = detailOr "Failed to upload invoice" e ∧
      errMap .getStats e = detailOr "Failed to get dashboard stats" e ∧
      errMap .getRecentInvoices e = detailOr "Failed to get recent invoices" e) ∧
    (errMap .refreshToken e = detailOr "Token refresh failed" e ∧
      errMap .forgotPassword e = detailOr "Failed to send reset email" e ∧
      errMap .resetPassword e = detailOr "Failed to reset password" e ∧
      errMap .updateProfile e = detailOr "Failed to update profile" e ∧
      errMap .getInvoices e = detailOr "Failed to get invoices" e ∧
      errMap .getInvoice e = detailOr "Failed to get invoice" e ∧
      errMap .approveInvoice e = detailOr "Failed to approve invoice" e) ∧
    (∀ (c : MethodCall) (oracle : HttpRequest → Except AxiosError RespBody),
      oracle (requestOf c) = .error e →
      (runMethod c oracle).2 = .error (errMap (methodTag c) e)) := by
  refine ⟨?_, ?_, ⟨rfl, rfl, rfl, rfl, rfl, rfl, rfl⟩, ?_⟩
  · intro h401
    simp [errMap, AxiosError.hasStatus, h, h401]
  · intro h401
    simp [errMap, AxiosError.hasStatus, h, h401]
  · intro c oracle ho
    simp [runMethod, ho]

/-- Claim C1, witness for the amended theorem at a concrete 401 error. -/
theorem service_401_mapping_witness :
    errMap .uploadInvoice ⟨some ⟨401, none⟩⟩ = "Authentication required" :=
  ((service_401_mapping ⟨some ⟨401, none⟩⟩ ⟨401, none⟩ rfl).1 rfl).1

/-- Claim C2, counterexample. The claim says every method surfaces the
server detail of a 400 response. `changePassword` instead throws the
fixed message "Current password is incorrect" on 400, ignoring the
detail, and `login` falls back to "Login failed" when the detail is the
empty string. -/
theorem changePassword_400_ignores_detail :
    errMap .changePassword ⟨some ⟨400, some "boom"⟩⟩ =
      "Current password is incorrect" ∧
    "Current password is incorrect" ≠ "boom" ∧
    errMap .login ⟨some ⟨400, some ""⟩⟩ = "Login failed" := by
  refine ⟨by decide, by decide, by decide⟩

/-- Claim C2, amended. Every service method other than `changePassword`
surfaces a non-empty server detail of a 400 failure as the thrown error
message; `changePassword` maps 400 to the fixed message "Current
password is incorrect". -/
theorem service_400_detail_surfaced (m : SMethod) (hm : m ≠ .changePassword)
    (e : AxiosError) (r : AxiosResponseInfo) (d : String)
    (h : e.response = some r) (h400 : r.status = 400) (hd : r.detail = some d)
    (hne : d ≠ "") :
    errMap m e = d ∧
    errMap .changePassword e = "Current password is incorrect" := by
  constructor
  · cases m <;> simp_all [errMap, detailOr, AxiosError.hasStatus]
  · simp [errMap, AxiosError.hasStatus, h, h400]

/-- Claim C2, witness for the amended theorem at a concrete 400 error. -/
theorem service_400_detail_surfaced_witness :
    errMap .register ⟨some ⟨400, some "Email already registered"⟩⟩ =
      "Email already registered" :=
  (service_400_detail_surfaced .register (by decide)
    ⟨some ⟨400, some "Email already registered"⟩⟩
    ⟨400, some "Email already registered"⟩ "Email already registered"
    rfl rfl rfl (by decide)).1

/-- Claim C5. Every invocation of every service method issues exactly one
HTTP request, whatever the oracle answers: the request trace is the
singleton of the method's own request, so there is no retry, no second
request and no cache hit. -/
theorem service_single_request (c : MethodCall)
    (oracle : HttpRequest → Except AxiosError RespBody) :
    (runMethod c oracle).1 = [requestOf c] := by
  cases h : oracle (requestOf c) <;> simp [runMethod, h]

/-- Claim C4. Every authenticated service request carries an
Authorization header equal to "Bearer " followed by the token: the token
argument for the AuthService methods, the localStorage value under
"docbot_token" for the InvoiceService and DashboardService methods. -/
theorem authenticated_requests_bearer (t : String) (s : Store)
    (hs : getItem "docbot_token" s = some t)
    (cur new fid : String) (p : Option GetInvoicesParams) (iid lim : Int) :
    ("Authorization", "Bearer " ++ t) ∈ (requestOf (.getCurrentUser t)).headers ∧
    ("Authorization", "Bearer " ++ t) ∈ (requestOf (.refreshToken t)).headers ∧
    ("Authorization", "Bearer " ++ t) ∈ (requestOf (.updateProfile t)).headers ∧
    ("Authorization", "Bearer " ++ t) ∈
      (requestOf (.changePassword t cur new)).headers ∧
    ("Authorization", "Bearer " ++ t) ∈
      (requestOf (.uploadInvoice s fid)).headers ∧
    ("Authorization", "Bearer " ++ t) ∈ (requestOf (.getInvoices s p)).headers ∧
    ("Authorization", "Bearer " ++ t) ∈ (requestOf (.getInvoice s iid)).headers ∧
    ("Authorization", "Bearer " ++ t) ∈
      (requestOf (.approveInvoice s iid)).headers ∧
    ("Authorization", "Bearer " ++ t) ∈ (requestOf (.getStats s)).headers ∧
    ("Authorization", "Bearer " ++ t) ∈
      (requestOf (.getRecentInvoices s lim)).headers := by
  have hb : bearerOf s = "Bearer " ++ t := by simp [bearerOf, hs]
  simp [requestOf, authHeadersAuth, authHeadersInvoice, authHeadersDashboard, hb]

/-- Claim C4, witness at a concrete token and store. -/
theorem authenticated_requests_bearer_witness :
    ("Authorization", "Bearer " ++ "tok123") ∈
      (requestOf (.getStats ⟨[("docbot_token", "tok123")]⟩)).headers :=
  (authenticated_requests_bearer "tok123" ⟨[("docbot_token", "tok123")]⟩
    (by decide) "a" "b" "f" none 1 10).2.2.2.2.2.2.2.2.1

/-- Claim C3. With no file selected, `handleUpload` shows the error toast
"Please select at least one file to upload", issues no upload request,
does not navigate, and leaves the file list and the uploading/progress
state exactly as they were; with files selected it issues exactly one
`uploadInvoice` call per selected file, in order. -/
theorem handleUpload_empty_and_per_file (files : List String) (u : Bool)
    (pr : Nat) (oracle : String → Except AxiosError UploadResponse) :
    (files = [] →
      handleUpload files u pr oracle =
        { notifications := [("Please select at least one file to upload", "error")]
          requests := []
          navigatedTo := none
          finalFiles := files
          finalUploading := u
          finalProgress := pr }) ∧
    (files ≠ [] → (handleUpload files u pr oracle).requests = files) := by
  constructor
  · intro h
    subst h
    rfl
  · intro h
    have hne : files.isEmpty = false := by
      simpa [List.isEmpty_iff] using h
    unfold handleUpload
    rw [hne]
    simp only [Bool.false_eq_true, if_false]
    split <;> rfl

/-- Claim C3, witness: the empty-list branch and the per-file branch at
concrete inputs. -/
theorem handleUpload_empty_and_per_file_witness :
    (handleUpload [] false 0 (fun _ => .error ⟨none⟩)).requests = [] ∧
    (handleUpload ["a", "b"] false 0 (fun _ => .error ⟨none⟩)).requests =
      ["a", "b"] := by
  constructor
  · rw [(handleUpload_empty_and_per_file [] false 0 (fun _ => .error ⟨none⟩)).1 rfl]
  · exact (handleUpload_empty_and_per_file ["a", "b"] false 0
      (fun _ => .error ⟨none⟩)).2 (by simp)

/-- Claim C6. `logout()` nulls the user and the token, removes the
"docbot_token" localStorage entry, and changes nothing else: `loading`
is untouched and every other localStorage key reads as before. -/
theorem logout_frame (st : AuthState) (s : Store) :
    (logout st s).1.user = none ∧
    (logout st s).1.token = none ∧
    getItem "docbot_token" (logout st s).2 = none ∧
    (logout st s).1.loading = st.loading ∧
    (∀ k, k ≠ "docbot_token" → getItem k (logout st s).2 = getItem k s) := by
  refine ⟨rfl, rfl, ?_, rfl, ?_⟩
  · exact getItem_removeItem_self _ s
  · intro k hk
    exact getItem_removeItem_ne k _ hk s

/-- Claim C6, witness: an unrelated key survives a concrete logout. -/
theorem logout_frame_witness :
    getItem "x" (logout ⟨none, some "tok", false⟩
        ⟨[("docbot_token", "tok"), ("x", "y")]⟩).2 =
      getItem "x" (⟨[("docbot_token", "tok"), ("x", "y")]⟩ : Store) :=
  (logout_frame ⟨none, some "tok", false⟩
    ⟨[("docbot_token", "tok"), ("x", "y")]⟩).2.2.2.2 "x" (by decide)

/-- Claim C7, counterexample. A 401 on an upload request does not
redirect to the login page: the run ends with no navigation at all (the
error is surfaced as a toast). -/
theorem upload_401_no_redirect :
    (handleUpload ["f1"] false 0
      (fun _ => .error ⟨some ⟨401, some "x"⟩⟩)).navigatedTo = none ∧
    (handleUpload ["f1"] false 0
      (fun _ => .error ⟨some ⟨401, some "x"⟩⟩)).notifications =
      [("Failed to upload invoices", "error")] := by
  refine ⟨by decide, by decide⟩

/-- Claim C7, amended. No service-call 401 triggers a redirect to the
login page: `handleUpload` never navigates to /login whatever the HTTP
outcomes are; the only 401 handling that touches authentication state is
`initAuth`, which on a failed token validation removes the stored token
and nulls the token state. -/
theorem no_login_redirect_on_401 :
    (∀ (files : List String) (u : Bool) (pr : Nat)
      (oracle : String → Except AxiosError UploadResponse),
      (handleUpload files u pr oracle).navigatedTo ≠ some "/login") ∧
    (∀ (s : Store) (tok : String)
      (oracle : HttpRequest → Except AxiosError User) (e : AxiosError),
      getItem "docbot_token" s = some tok →
      oracle (requestOf (.getCurrentUser tok)) = .error e →
      (initAuth s oracle).1.token = none ∧
      getItem "docbot_token" (initAuth s oracle).2 = none) := by
  constructor
  · intro files u pr oracle
    unfold handleUpload
    split
    · simp
    · split <;> simp
  · intro s tok oracle e hs ho
    simp [initAuth, hs, ho, getItem_removeItem_self]

/-- Claim C7, witness: a concrete failed token validation clears the
stored token, and a concrete upload run does not navigate to /login. -/
theorem no_login_redirect_on_401_witness :
    (initAuth ⟨[("docbot_token", "tok")]⟩
      (fun _ => .error ⟨some ⟨401, none⟩⟩)).1.token = none ∧
    (handleUpload ["f1"] false 0
      (fun _ => .error ⟨some ⟨401, none⟩⟩)).navigatedTo ≠ some "/login" := by
  constructor
  · exact (no_login_redirect_on_401.2 ⟨[("docbot_token", "tok")]⟩ "tok"
      (fun _ => .error ⟨some ⟨401, none⟩⟩) ⟨some ⟨401, none⟩⟩
      (by decide) rfl).1
  · exact no_login_redirect_on_401.1 ["f1"] false 0
      (fun _ => .error ⟨some ⟨401, none⟩⟩)

/-- Claim C8. The demo Dashboard stores the constant mock stats on mount,
whatever the backend would answer: total_invoices 47, pending_review 8,
approved_invoices 39, total_amount "23456.78". -/
theorem demo_dashboard_mock_stats (r : Option RespBody) :
    demoDashboardStatsAfterMount r = some demoMockStats ∧
    demoMockStats.total_invoices = 47 ∧
    demoMockStats.pending_review = 8 ∧
    demoMockStats.approved_invoices = 39 ∧
    demoMockStats.total_amount = "23456.78" :=
  ⟨rfl, rfl, rfl, rfl, rfl⟩

/-- Claim C9. `getRecentInvoices` yields the empty list when the
`invoices` field is absent or null and exactly that field otherwise, and
an omitted `limit` argument issues the request with limit=10. -/
theorem getRecentInvoices_extract_and_default (s : Store)
    (l : List RecentInvoice) :
    extractRecentInvoices ⟨none⟩ = [] ∧
    extractRecentInvoices ⟨some l⟩ = l ∧
    (requestOf (getRecentInvoicesCall s)).url =
      DASHBOARD_API_BASE_URL ++ "/api/v1/invoices?limit=10" :=
  ⟨rfl, rfl, rfl⟩

theorem mem_numParamSeg {q : String × String} {name : String} {o : Option Int}
    (h : q ∈ numParamSeg name o) :
    q.1 = name ∧ ∃ n, o = some n ∧ n ≠ 0 ∧ q.2 = toString n := by
  cases o with
  | none => simp [numParamSeg] at h
  | some n =>
    by_cases hn : n = 0
    · simp [numParamSeg, hn] at h
    · simp [numParamSeg, hn] at h
      subst h
      exact ⟨rfl, n, rfl, hn, rfl⟩

theorem mem_strParamSeg {q : String × String} {name : String}
    {o : Option String} (h : q ∈ strParamSeg name o) :
    q.1 = name ∧ ∃ f, o = some f ∧ f ≠ "" ∧ q.2 = f := by
  cases o with
  | none => simp [strParamSeg] at h
  | some f =>
    by_cases hf : f = ""
    · simp [strParamSeg, hf] at h
    · simp [strParamSeg, hf] at h
      subst h
      exact ⟨rfl, f, rfl, hf, rfl⟩

/-- Claim C10. `getInvoices` omits a query parameter whenever its value
is falsy: `skip = 0`, `limit = 0` and an empty `status_filter` are never
appended (so offset 0 and page size 0 cannot be requested explicitly),
while non-zero numbers and non-empty filters are always appended under
their own names. -/
theorem getInvoices_query_falsy_omitted (p : GetInvoicesParams) :
    (p.skip = some 0 → ∀ q ∈ invoiceQueryParams (some p), q.1 ≠ "skip") ∧
    (p.limit = some 0 → ∀ q ∈ invoiceQueryParams (some p), q.1 ≠ "limit") ∧
    (p.status_filter = some "" →
      ∀ q ∈ invoiceQueryParams (some p), q.1 ≠ "status_filter") ∧
    (∀ n : Int, n ≠ 0 → p.skip = some n →
      ("skip", toString n) ∈ invoiceQueryParams (some p)) ∧
    (∀ n : Int, n ≠ 0 → p.limit = some n →
      ("limit", toString n) ∈ invoiceQueryParams (some p)) ∧
    (∀ f : String, f ≠ "" → p.status_filter = some f →
      ("status_filter", f) ∈ invoiceQueryParams (some p)) := by
  refine ⟨?_, ?_, ?_, ?_, ?_, ?_⟩
  · intro hsk q hq
    rcases List.mem_append.mp hq with h12 | h3
    · rcases List.mem_append.mp h12 with h1 | h2
      · obtain ⟨-, n, hn, hn0, -⟩ := mem_numParamSeg h1
        rw [hsk] at hn
        exact absurd (Option.some_injective _ hn).symm hn0
      · rw [(mem_numParamSeg h2).1]
        decide
    · rw [(mem_strParamSeg h3).1]
      decide
  · intro hli q hq
    rcases List.mem_append.mp hq with h12 | h3
    · rcases List.mem_append.mp h12 with h1 | h2
      · rw [(mem_numParamSeg h1).1]
        decide
      · obtain ⟨-, n, hn, hn0, -⟩ := mem_numParamSeg h2
        rw [hli] at hn
        exact absurd (Option.some_injective _ hn).symm hn0
    · rw [(mem_strParamSeg h3).1]
      decide
  · intro hsf q hq
    rcases List.mem_append.mp hq with h12 | h3
    · rcases List.mem_append.mp h12 with h1 | h2
      · rw [(mem_numParamSeg h1).1]
        decide
      · rw [(mem_numParamSeg h2).1]
        decide
    · obtain ⟨-, f, hf, hf0, -⟩ := mem_strParamSeg h3
      rw [hsf] at hf
      exact absurd (Option.some_injective _ hf).symm hf0
  · intro n hn hsk
    refine List.mem_append_left _ (List.mem_append_left _ ?_)
    simp [numParamSeg, hsk, hn]
  · intro n hn hli
    refine List.mem_append_left _ (List.mem_append_right _ ?_)
    simp [numParamSeg, hli, hn]
  · intro f hf hsf
    refine List.mem_append_right _ ?_
    simp [strParamSeg, hsf, hf]

/-- Claim C10, witness at a concrete params record with a falsy skip. -/
theorem getInvoices_query_falsy_omitted_witness :
    ("limit", toString (20 : Int)) ∈
      invoiceQueryParams (some ⟨some 0, some 20, some "pending"⟩) ∧
    (∀ q ∈ invoiceQueryParams (some ⟨some 0, some 20, some "pending"⟩),
      q.1 ≠ "skip") := by
  constructor
  · exact (getInvoices_query_falsy_omitted
      ⟨some 0, some 20, some "pending"⟩).2.2.2.2.1 20 (by decide) rfl
  · exact (getInvoices_query_falsy_omitted
      ⟨some 0, some 20, some "pending"⟩).1 rfl

end Docbot
